import Mathlib

/-!
Verification of src/govno_price_widget.py, a tkinter floating widget that
polls a price API and displays price plus 24h change.

Shallow embedding conventions:
- Python floats are modelled as rationals; prices and percentages flow
  through the program as plain numeric values.
- The mutable attributes of the CryptoPriceWidget instance are gathered in
  the WidgetState structure; each method becomes a function on that state.
- Code that can raise a Python exception is embedded in Except PyErr.
- tkinter, requests and PIL are external: their observable behaviour at the
  call sites used by the program is modelled (documented per definition).
-/

namespace GovnoWidget

/-- Python exceptions that the embedded code can raise. -/
inductive PyErr where
  | keyError (k : String)
  | typeError
  | valueError
  | attributeError (a : String)
deriving DecidableEq

/-- WidgetConfig.UPDATE_INTERVAL: poll interval in seconds (default 30). -/
def UPDATE_INTERVAL : ℕ := 30

/-- The mutable state of a CryptoPriceWidget instance: previous_price and
running from __init__, the texts and colors of the two labels, the optional
drag_data attribute, the window position, and whether super().quit() has
been called on the Tk mainloop. -/
structure WidgetState where
  previousPrice : Option ℚ
  running : Bool
  priceText : String
  priceColor : String
  percentText : String
  percentColor : String
  dragData : Option (ℤ × ℤ)
  winX : ℤ
  winY : ℤ
  tkQuitRequested : Bool
deriving DecidableEq

/-- State after __init__ has run _setup_window, _create_price_labels and
_position_window: previous_price = None, running = True, labels show
"Loading..." / "" in white, no drag_data, window at the top-right corner
(screenwidth - width - 20, 20). -/
def initState (screenW winW : ℤ) : WidgetState :=
  { previousPrice := none
    running := true
    priceText := "Loading..."
    priceColor := "white"
    percentText := ""
    percentColor := "white"
    dragData := none
    winX := screenW - winW - 20
    winY := 20
    tkQuitRequested := false }

/-- The character for the decimal digit n % 10 (ASCII 48 + digit). -/
def natDigitChar (n : ℕ) : Char := Char.ofNat (48 + n % 10)

/-- The k least-significant decimal digits of m, zero-padded to exactly k
characters, most significant first.  This is the fractional field produced
by Python % formatting with a fixed precision. -/
def paddedDigits : ℕ → ℕ → List Char
  | 0, _ => []
  | k + 1, m => paddedDigits k (m / 10) ++ [natDigitChar m]

/-- Fixed-point rendering of a nonnegative rational with nd fractional
digits: the integer part unpadded, a dot, then exactly nd digits.  Models
Python format specifier .ndf on a nonnegative value; the rounding of the
scaled value is modelled on the rational. -/
def fmtFixedNonneg (nd : ℕ) (q : ℚ) : String :=
  let mn : ℕ := (round (q * (10 : ℚ) ^ nd)).toNat
  toString (mn / 10 ^ nd) ++ "." ++ String.mk (paddedDigits nd (mn % 10 ^ nd))

/-- Fixed-point rendering of a rational with nd fractional digits, with a
leading minus sign for negative values: models Python format .ndf. -/
def fmtFixed (nd : ℕ) (q : ℚ) : String :=
  if q < 0 then "-" ++ fmtFixedNonneg nd (-q) else fmtFixedNonneg nd q

/-- The price label text set by _update_price_display: f-string with
price formatted as .6f prefixed by a dollar sign. -/
def formatPriceText (price : ℚ) : String := "$" ++ fmtFixed 6 price

/-- The percent label text set by _update_price_display: an up glyph when
change >= 0 else a down glyph, then abs(change) formatted as .2f, then a
percent sign. -/
def formatChangeText (change : ℚ) : String :=
  (if 0 ≤ change then "↑" else "↓") ++ fmtFixed 2 |change| ++ "%"

/-- _update_price_display(price, change): price color is green when
previous_price is None or price >= previous_price, else red; percent color
is green when change >= 0 else red; both label texts are reconfigured; then
previous_price := price. -/
def updatePriceDisplay (s : WidgetState) (price change : ℚ) : WidgetState :=
  let priceColor :=
    match s.previousPrice with
    | none => "#00ff00"
    | some pp => if pp ≤ price then "#00ff00" else "#ff0000"
  let percentColor := if 0 ≤ change then "#00ff00" else "#ff0000"
  { s with
    priceText := formatPriceText price
    priceColor := priceColor
    percentText := formatChangeText change
    percentColor := percentColor
    previousPrice := some price }

/-- _start_drag(event): store drag_data = (event.x_root - winfo_x(),
event.y_root - winfo_y()), overwriting any previous drag_data. -/
def startDrag (s : WidgetState) (px py : ℤ) : WidgetState :=
  { s with dragData := some (px - s.winX, py - s.winY) }

/-- _on_drag(event): when the drag_data attribute exists, move the window
to (event.x_root - drag_data.x, event.y_root - drag_data.y); otherwise do
nothing. -/
def onDrag (s : WidgetState) (px py : ℤ) : WidgetState :=
  match s.dragData with
  | none => s
  | some (dx, dy) => { s with winX := px - dx, winY := py - dy }

/-- _stop_drag(event): delete the drag_data attribute when it exists. -/
def stopDrag (s : WidgetState) : WidgetState :=
  match s.dragData with
  | none => s
  | some _ => { s with dragData := none }

/-- quit(): set running = False, then super().quit() which asks the Tk
mainloop to stop. -/
def quitWidget (s : WidgetState) : WidgetState :=
  { s with running := false, tkQuitRequested := true }

/-- The operations that mutate a live widget's state: a successfully
parsed sample applied by the loop, a cycle with no sample, the three
drag-event handlers, and the right-click binding that calls quit(). -/
inductive Op where
  | applySample (price change : ℚ)
  | skipCycle
  | buttonDown (px py : ℤ)
  | pointerMove (px py : ℤ)
  | buttonUp
  | rightClick
deriving DecidableEq

/-- Dispatch one operation to the handler the source binds it to. -/
def applyOp (s : WidgetState) : Op → WidgetState
  | .applySample price change => updatePriceDisplay s price change
  | .skipCycle => s
  | .buttonDown px py => startDrag s px py
  | .pointerMove px py => onDrag s px py
  | .buttonUp => stopDrag s
  | .rightClick => quitWidget s

/-- Run a sequence of operations from a state. -/
def runOps (s : WidgetState) (ops : List Op) : WidgetState :=
  ops.foldl applyOp s

/-- Apply a sequence of price samples through _update_price_display. -/
def runSamples (s : WidgetState) (l : List (ℚ × ℚ)) : WidgetState :=
  l.foldl (fun st p => updatePriceDisplay st p.1 p.2) s

/-- JSON values as returned by response.json().  Arrays are not modelled:
no claim involves an array-valued response.  Duplicate object keys are not
modelled (Python dicts keep one binding per key). -/
inductive Json where
  | jnull
  | jnum (q : ℚ)
  | jstr (s : String)
  | jobj (fields : List (String × Json))

/-- First binding of a key in an association list (Python dict lookup). -/
def lookupField : List (String × Json) → String → Option Json
  | [], _ => none
  | (k, v) :: rest, key => if k = key then some v else lookupField rest key

/-- Python truthiness of a JSON value: None, 0, the empty string and the
empty dict are falsy. -/
def Json.truthy : Json → Bool
  | .jnull => false
  | .jnum q => if q = 0 then false else true
  | .jstr s => if s = "" then false else true
  | .jobj [] => false
  | .jobj (_ :: _) => true

/-- Python membership test key in value: key lookup for a dict, substring
test for a string, TypeError otherwise. -/
def Json.containsKey : Json → String → Except PyErr Bool
  | .jobj fs, key => .ok (lookupField fs key).isSome
  | .jstr s, key => .ok (decide ((s.splitOn key).length ≠ 1))
  | _, _ => .error .typeError

/-- Python subscript value[key] with a string key: dict lookup raising
KeyError when the key is absent; TypeError on any non-dict value. -/
def Json.getItem : Json → String → Except PyErr Json
  | .jobj fs, key =>
    match lookupField fs key with
    | some v => .ok v
    | none => .error (.keyError key)
  | _, _ => .error .typeError

/-- Digits of a list of characters accumulated into a natural; none when
any character is not a decimal digit. -/
def digitsToNat (acc : ℕ) : List Char → Option ℕ
  | [] => some acc
  | c :: cs => if c.isDigit then digitsToNat (acc * 10 + (c.toNat - 48)) cs else none

/-- Unsigned decimal literal: digits, optionally a dot and digits; either
side of the dot may be empty but not both. -/
def parseUnsigned (cs : List Char) : Option ℚ :=
  let intCs := cs.takeWhile (fun c => c ≠ '.')
  match cs.dropWhile (fun c => c ≠ '.') with
  | [] => if intCs = [] then none else (digitsToNat 0 intCs).map (fun n => (n : ℚ))
  | _ :: fracCs =>
    if intCs = [] ∧ fracCs = [] then none
    else do
      let ip ← if intCs = [] then some 0 else digitsToNat 0 intCs
      let fp ← if fracCs = [] then some 0 else digitsToNat 0 fracCs
      some ((ip : ℚ) + (fp : ℚ) / (10 : ℚ) ^ fracCs.length)

/-- Models the Python builtin float applied to a string: parses a plain
signed decimal literal, none (ValueError) otherwise.  Exponents,
infinities, nan and surrounding whitespace are not modelled; no claim
exercises them. -/
def parseFloatLit (s : String) : Option ℚ :=
  match s.toList with
  | [] => none
  | c :: cs =>
    if c = '-' then (parseUnsigned cs).map (fun q => -q)
    else if c = '+' then parseUnsigned cs
    else parseUnsigned (c :: cs)

/-- Python float(x) on a JSON value: a number is returned as is, a string
is parsed as a decimal literal (ValueError on failure), anything else is a
TypeError. -/
def pyFloat : Json → Except PyErr ℚ
  | .jnum q => .ok q
  | .jstr s =>
    match parseFloatLit s with
    | some q => .ok q
    | none => .error .valueError
  | _ => .error .typeError

/-- The parse performed by the body of _update_price_loop on the fetched
data: if data is None or falsy or lacks the key "data", no sample; else
token_data = data["data"]["attributes"], price =
float(token_data["base_token_price_usd"]), change =
float(token_data["price_change_percentage"]["h24"]); any KeyError,
TypeError or ValueError raised by those subscripts and conversions
propagates out of the loop body uncaught. -/
def parseSample (data : Option Json) : Except PyErr (Option (ℚ × ℚ)) :=
  match data with
  | none => .ok none
  | some d =>
    if d.truthy then
      match d.containsKey "data" with
      | .error e => .error e
      | .ok false => .ok none
      | .ok true => do
        let dd ← d.getItem "data"
        let tokenData ← dd.getItem "attributes"
        let priceJ ← tokenData.getItem "base_token_price_usd"
        let price ← pyFloat priceJ
        let pcp ← tokenData.getItem "price_change_percentage"
        let h24 ← pcp.getItem "h24"
        let change ← pyFloat h24
        .ok (some (price, change))
    else .ok none

/-- One iteration body of _update_price_loop given the fetch result: parse
the data and, when a sample is obtained, run _update_price_display;
exceptions raised while extracting the fields are not caught anywhere in
the loop, so they abort the update thread. -/
def loopCycleBody (s : WidgetState) (data : Option Json) : Except PyErr WidgetState :=
  match parseSample data with
  | .error e => .error e
  | .ok none => .ok s
  | .ok (some (price, change)) => .ok (updatePriceDisplay s price change)

/-- Outcome of the HTTP GET performed by requests.get in _fetch_price_data:
either the transport fails (connection error, timeout, DNS failure — all
raising a RequestException subclass), or a response arrives with a status
code and a body that either decodes as JSON or does not. -/
inductive HttpOutcome where
  | transportFailure
  | response (status : ℕ) (body : Except Unit Json)

/-- The requests.exceptions.RequestException family, the class caught by
_fetch_price_data.  Timeout, ConnectionError, HTTPError and the JSON
decode error raised by response.json() are all subclasses. -/
inductive ReqErr where
  | requestException
deriving DecidableEq

/-- The try-block of _fetch_price_data: requests.get (raises on transport
failure), response.raise_for_status() (raises HTTPError for 4xx/5xx),
response.json() (raises a RequestException subclass when the body is not
valid JSON). -/
def fetchAttempt : HttpOutcome → Except ReqErr Json
  | .transportFailure => .error .requestException
  | .response st body =>
    if 400 ≤ st ∧ st < 600 then .error .requestException
    else
      match body with
      | .ok j => .ok j
      | .error _ => .error .requestException

/-- _fetch_price_data: the try-block wrapped in
except requests.exceptions.RequestException: return None. -/
def fetchPriceData (o : HttpOutcome) : Option Json :=
  match fetchAttempt o with
  | .ok j => some j
  | .error _ => none

/-- The attributes relevant to startup: which labels exist on the
instance, whether the logo error branch printed, and whether _bind_events
completed. -/
structure StartupState where
  priceLabel : Bool
  percentLabel : Bool
  imageLabel : Bool
  logoErrorLogged : Bool
  bindingsInstalled : Bool
deriving DecidableEq

/-- _load_logo: on success creates self.image_label; any exception
(including the FileNotFoundError raised when logo.png is absent) is caught
and printed, and the attribute is never created. -/
def loadLogo (logoLoads : Bool) (s : StartupState) : StartupState :=
  if logoLoads then { s with imageLabel := true }
  else { s with logoErrorLogged := true }

/-- _create_price_labels: creates self.price_label and
self.percent_label unconditionally. -/
def createPriceLabels (s : StartupState) : StartupState :=
  { s with priceLabel := true, percentLabel := true }

/-- _bind_events: builds the tuple (self.price_label, self.percent_label,
self.image_label); reading an attribute that was never created raises
AttributeError, so the bindings are installed only when all three labels
exist. -/
def bindEvents (s : StartupState) : Except PyErr StartupState :=
  if s.priceLabel then
    if s.percentLabel then
      if s.imageLabel then .ok { s with bindingsInstalled := true }
      else .error (.attributeError "image_label")
    else .error (.attributeError "percent_label")
  else .error (.attributeError "price_label")

/-- The startup sequence run by __init__ as far as the claims reach:
_load_logo, _create_price_labels (both inside _create_widgets), then
_bind_events; an uncaught exception aborts __init__ and the process. -/
def startupWidget (logoLoads : Bool) : Except PyErr StartupState :=
  let s0 : StartupState :=
    { priceLabel := false, percentLabel := false, imageLabel := false
      logoErrorLogged := false, bindingsInstalled := false }
  bindEvents (createPriceLabels (loadLogo logoLoads s0))

/-- The two execution contexts of the program: the Tk mainloop thread and
the update thread started by _start_price_updates. -/
inductive ExecContext where
  | uiThread
  | workerThread
deriving DecidableEq

/-- The label mutations performed by one call to _update_price_display,
tagged with the context the call executes in: it configures price_label
and percent_label directly. -/
def displayMutations (ctx : ExecContext) : List (ExecContext × String) :=
  [(ctx, "price_label.configure"), (ctx, "percent_label.configure")]

/-- The UI mutations performed by one cycle of _update_price_loop: the
loop runs on the thread created in _start_price_updates and, on a
successful parse, calls self._update_price_display synchronously in that
same context; no queue or event posting is involved. -/
def cycleMutations (data : Option Json) : Except PyErr (List (ExecContext × String)) :=
  match parseSample data with
  | .error e => .error e
  | .ok none => .ok []
  | .ok (some _) => .ok (displayMutations ExecContext.workerThread)

/-- Control position within _update_price_loop: about to test the while
condition, inside time.sleep, or past the loop. -/
inductive LoopPhase where
  | atCheck
  | atSleep
  | exited
deriving DecidableEq

/-- One transition of the scheduler loop paired with its fetch count.
From atCheck the while condition reads running: true issues the fetch
(and possibly the display update) and proceeds to the sleep, false leaves
the loop.  From atSleep the sleep of UPDATE_INTERVAL seconds ends and
control returns to the while test. -/
def loopStep (running : Bool) : LoopPhase × ℕ → LoopPhase × ℕ
  | (.atCheck, n) => if running then (.atSleep, n + 1) else (.exited, n)
  | (.atSleep, n) => (.atCheck, n)
  | (.exited, n) => (.exited, n)

/-- Seconds from a close requested e seconds into time.sleep until the
loop next tests the while condition: the sleep always lasts
UPDATE_INTERVAL seconds in total. -/
def teardownLatency (elapsedInSleep : ℕ) : ℕ := UPDATE_INTERVAL - elapsedInSleep

/-- Fold step recording the price carried by the most recent applySample
operation. -/
def lastPriceStep (acc : Option ℚ) : Op → Option ℚ
  | .applySample price _ => some price
  | _ => acc

/-- The price of the most recent applySample in an operation sequence,
none when no sample was ever applied. -/
def lastAppliedPrice (ops : List Op) : Option ℚ :=
  ops.foldl lastPriceStep none

end GovnoWidget

namespace GovnoWidget

theorem runSamples_append_single (l : List (ℚ × ℚ)) (p : ℚ × ℚ) (s : WidgetState) :
    runSamples s (l ++ [p]) = updatePriceDisplay (runSamples s l) p.1 p.2 := by
  simp [runSamples, List.foldl_append]

theorem previousPrice_runSamples_last (l : List (ℚ × ℚ)) (q : ℚ × ℚ) (s : WidgetState) :
    (runSamples s (l ++ [q])).previousPrice = some q.1 := by
  rw [runSamples_append_single]; rfl

theorem priceColor_of_some (s : WidgetState) (pp price change : ℚ)
    (h : s.previousPrice = some pp) :
    ((updatePriceDisplay s price change).priceColor = "#00ff00" ↔ pp ≤ price) ∧
    ((updatePriceDisplay s price change).priceColor = "#ff0000" ↔ ¬ pp ≤ price) := by
  by_cases hc : pp ≤ price <;> simp [updatePriceDisplay, h, hc]

/-- C2: after any successful sample sequence, the price color at a step is
green iff the step's price is at least the previous step's price, green
unconditionally at the first step, and the percent color is green iff the
change is nonnegative, independently of the price color. -/
theorem colorPolicy_runSamples (sw ww : ℤ) (pre : List (ℚ × ℚ)) (p : ℚ × ℚ) :
    (((runSamples (initState sw ww) (pre ++ [p])).percentColor = "#00ff00" ↔ 0 ≤ p.2) ∧
     ((runSamples (initState sw ww) (pre ++ [p])).percentColor = "#ff0000" ↔ ¬ 0 ≤ p.2)) ∧
    (pre = [] → (runSamples (initState sw ww) (pre ++ [p])).priceColor = "#00ff00") ∧
    (∀ (pre' : List (ℚ × ℚ)) (q : ℚ × ℚ), pre = pre' ++ [q] →
      (((runSamples (initState sw ww) (pre ++ [p])).priceColor = "#00ff00" ↔ q.1 ≤ p.1) ∧
       ((runSamples (initState sw ww) (pre ++ [p])).priceColor = "#ff0000" ↔ ¬ q.1 ≤ p.1))) := by
  rw [runSamples_append_single]
  refine ⟨?_, ?_, ?_⟩
  · by_cases hc : (0:ℚ) ≤ p.2 <;> simp [updatePriceDisplay, hc]
  · rintro rfl
    simp [runSamples, initState, updatePriceDisplay]
  · rintro pre' q rfl
    exact priceColor_of_some _ q.1 p.1 p.2 (previousPrice_runSamples_last pre' q _)

/-- Witness for C2 at the concrete sequence [(1, 1), (2, -3)]: the second
sample's price color is green since 2 >= 1. -/
theorem colorPolicy_runSamples_witness :
    (runSamples (initState 0 0) ([((1:ℚ), (1:ℚ))] ++ [((2:ℚ), (-3:ℚ))])).priceColor = "#00ff00" :=
  ((colorPolicy_runSamples 0 0 [(1, 1)] (2, -3)).2.2 [] (1, 1) rfl).1.mpr (by norm_num)

end GovnoWidget

namespace GovnoWidget

/-- C4: a button-down at (px0, py0) with the window at (wx0, wy0) followed
by a move to (px1, py1) puts the window exactly at
(wx0 + px1 - px0, wy0 + py1 - py0); moves with no drag session active
change nothing; and a second full drag cycle composes exactly, with no
accumulated drift, because the anchor is recomputed at each button-down. -/
theorem drag_invariant (s : WidgetState) (px0 py0 px1 py1 qx0 qy0 qx1 qy1 : ℤ) :
    ((onDrag (startDrag s px0 py0) px1 py1).winX = s.winX + (px1 - px0) ∧
     (onDrag (startDrag s px0 py0) px1 py1).winY = s.winY + (py1 - py0)) ∧
    (s.dragData = none → onDrag s px1 py1 = s) ∧
    ((onDrag (startDrag (stopDrag (onDrag (startDrag s px0 py0) px1 py1)) qx0 qy0) qx1 qy1).winX
        = s.winX + (px1 - px0) + (qx1 - qx0) ∧
     (onDrag (startDrag (stopDrag (onDrag (startDrag s px0 py0) px1 py1)) qx0 qy0) qx1 qy1).winY
        = s.winY + (py1 - py0) + (qy1 - qy0)) := by
  refine ⟨⟨?_, ?_⟩, ?_, ?_, ?_⟩
  · simp [startDrag, onDrag]; ring
  · simp [startDrag, onDrag]; ring
  · intro h; simp [onDrag, h]
  · simp [startDrag, onDrag, stopDrag]; ring
  · simp [startDrag, onDrag, stopDrag]; ring

/-- Witness for C4: from the initial window position (1920 - 200 - 20, 20),
a pointer move with no drag session in progress leaves the state unchanged,
and a down-move pair moves the window by the pointer delta. -/
theorem drag_invariant_witness :
    onDrag (initState 1920 200) 5 7 = initState 1920 200 ∧
    (onDrag (startDrag (initState 1920 200) 5 7) 11 10).winX = (1920 - 200 - 20) + (11 - 5) :=
  ⟨(drag_invariant (initState 1920 200) 0 0 5 7 0 0 0 0).2.1 rfl,
   (drag_invariant (initState 1920 200) 5 7 11 10 0 0 0 0).1.1⟩

/-- C5: quit is idempotent, always leaves running = False, no operation
ever sets running back to True once it is False, and quit is the only
operation that changes running at all. -/
theorem quit_idempotent_oneway :
    (∀ s : WidgetState, quitWidget (quitWidget s) = quitWidget s) ∧
    (∀ s : WidgetState, (quitWidget s).running = false) ∧
    (∀ (s : WidgetState) (op : Op), s.running = false → (applyOp s op).running = false) ∧
    (∀ (s : WidgetState) (op : Op), op ≠ Op.rightClick → (applyOp s op).running = s.running) := by
  refine ⟨fun s => rfl, fun s => rfl, ?_, ?_⟩
  · intro s op h
    cases op with
    | applySample price change => simpa [applyOp, updatePriceDisplay] using h
    | skipCycle => simpa [applyOp] using h
    | buttonDown px py => simpa [applyOp, startDrag] using h
    | pointerMove px py =>
      rcases hd : s.dragData with _ | ⟨dx, dy⟩ <;> simpa [applyOp, onDrag, hd] using h
    | buttonUp =>
      rcases hd : s.dragData with _ | d <;> simpa [applyOp, stopDrag, hd] using h
    | rightClick => rfl
  · intro s op h
    cases op with
    | applySample price change => rfl
    | skipCycle => rfl
    | buttonDown px py => rfl
    | pointerMove px py =>
      rcases hd : s.dragData with _ | ⟨dx, dy⟩ <;> simp [applyOp, onDrag, hd]
    | buttonUp =>
      rcases hd : s.dragData with _ | d <;> simp [applyOp, stopDrag, hd]
    | rightClick => exact absurd rfl h

/-- Witness for C5: once running is False after a quit, a further sample
application leaves it False, and a non-quit operation preserves running. -/
theorem quit_idempotent_oneway_witness :
    (applyOp (quitWidget (initState 1920 200)) (Op.applySample 1 2)).running = false ∧
    (applyOp (initState 1920 200) Op.skipCycle).running = (initState 1920 200).running :=
  ⟨quit_idempotent_oneway.2.2.1 (quitWidget (initState 1920 200)) (Op.applySample 1 2) rfl,
   quit_idempotent_oneway.2.2.2 (initState 1920 200) Op.skipCycle (by simp)⟩

end GovnoWidget

namespace GovnoWidget

theorem previousPrice_applyOp (s : WidgetState) (op : Op) :
    (applyOp s op).previousPrice = lastPriceStep s.previousPrice op := by
  cases op with
  | pointerMove px py =>
    rcases hd : s.dragData with _ | ⟨dx, dy⟩ <;> simp [applyOp, onDrag, hd, lastPriceStep]
  | buttonUp =>
    rcases hd : s.dragData with _ | d <;> simp [applyOp, stopDrag, hd, lastPriceStep]
  | _ => rfl

theorem previousPrice_runOps (ops : List Op) : ∀ s : WidgetState,
    (runOps s ops).previousPrice = ops.foldl lastPriceStep s.previousPrice := by
  induction ops with
  | nil => intro s; rfl
  | cons op ops ih =>
    intro s
    show (runOps (applyOp s op) ops).previousPrice = _
    rw [ih (applyOp s op), previousPrice_applyOp]
    rfl

theorem foldl_lastPriceStep_ne_none (ops : List Op) : ∀ acc : Option ℚ, acc ≠ none →
    ops.foldl lastPriceStep acc ≠ none := by
  induction ops with
  | nil => intro acc h; exact h
  | cons op ops ih =>
    intro acc h
    cases op with
    | applySample price change => exact ih (some price) (by simp)
    | _ => exact ih acc h

/-- C10: from the initial state, previousPrice always equals the price of
the most recently applied sample (none while no sample was ever applied),
and once it is not none no operation sequence makes it none again. -/
theorem previousPrice_invariant (sw ww : ℤ) (ops : List Op) :
    (runOps (initState sw ww) ops).previousPrice = lastAppliedPrice ops ∧
    (∀ s : WidgetState, s.previousPrice ≠ none → (runOps s ops).previousPrice ≠ none) := by
  refine ⟨?_, ?_⟩
  · rw [previousPrice_runOps]; rfl
  · intro s h
    rw [previousPrice_runOps]
    exact foldl_lastPriceStep_ne_none ops s.previousPrice h

/-- Witness for C10: a drag event then a sample (price 3) yields
previousPrice = some 3, and a state whose previousPrice is already set
keeps a non-none previousPrice across a skipped cycle. -/
theorem previousPrice_invariant_witness :
    (runOps (initState 1920 200) [Op.buttonDown 4 5, Op.applySample 3 7]).previousPrice
      = lastAppliedPrice [Op.buttonDown 4 5, Op.applySample 3 7] ∧
    (runOps (updatePriceDisplay (initState 1920 200) 1 2) [Op.skipCycle]).previousPrice ≠ none :=
  ⟨(previousPrice_invariant 1920 200 [Op.buttonDown 4 5, Op.applySample 3 7]).1,
   (previousPrice_invariant 1920 200 [Op.skipCycle]).2
     (updatePriceDisplay (initState 1920 200) 1 2) (by simp [updatePriceDisplay])⟩

/-- C6: with running observed False, the loop goes from the sleep phase
through the while test straight to exit with no further fetch; the fetch
count only ever increases at a while test that observed running = True;
and the latency from a close e seconds into a sleep to that test is at
most UPDATE_INTERVAL seconds. -/
theorem shutdown_during_sleep (n e : ℕ) (st : LoopPhase × ℕ) (r : Bool) :
    loopStep false (loopStep false (LoopPhase.atSleep, n)) = (LoopPhase.exited, n) ∧
    ((loopStep r st).2 ≠ st.2 → st.1 = LoopPhase.atCheck ∧ r = true) ∧
    teardownLatency e ≤ UPDATE_INTERVAL := by
  refine ⟨rfl, ?_, Nat.sub_le _ _⟩
  obtain ⟨ph, m⟩ := st
  cases ph with
  | atCheck =>
    cases r with
    | true => exact fun _ => ⟨rfl, rfl⟩
    | false => exact fun h => absurd rfl h
  | atSleep => exact fun h => absurd rfl h
  | exited => exact fun h => absurd rfl h

/-- Witness for C6: a while test with running = True issues a fetch, so
the count changes exactly there. -/
theorem shutdown_during_sleep_witness :
    LoopPhase.atCheck = LoopPhase.atCheck ∧ true = true :=
  (shutdown_during_sleep 0 5 (LoopPhase.atCheck, 0) true).2.1 (by decide)

/-- C7: a transport failure or an HTTP error status (4xx/5xx) makes
_fetch_price_data return None; the RequestException raised inside the try
block is caught, never propagated. -/
theorem fetch_failure_yields_none :
    fetchPriceData HttpOutcome.transportFailure = none ∧
    (∀ (st : ℕ) (body : Except Unit Json), 400 ≤ st → st < 600 →
      fetchPriceData (HttpOutcome.response st body) = none) := by
  refine ⟨rfl, fun st body h1 h2 => ?_⟩
  simp [fetchPriceData, fetchAttempt, h1, h2]

/-- Witness for C7: a 500 response with a well-formed JSON body still
yields None. -/
theorem fetch_failure_yields_none_witness :
    fetchPriceData (HttpOutcome.response 500 (Except.ok Json.jnull)) = none :=
  fetch_failure_yields_none.2 500 (Except.ok Json.jnull) (by norm_num) (by norm_num)

end GovnoWidget

namespace GovnoWidget

/-- C1 is violated by the code: a response whose nested fields are
malformed does not yield a silent no-update cycle.  With a non-numeric
base_token_price_usd the loop body raises ValueError at float(), and with
the attributes key absent it raises KeyError; neither exception is caught
anywhere in _update_price_loop, so the update thread dies.  Only a falsy
body or a missing top-level data key is skipped silently. -/
theorem malformed_fields_crash_loop (sw ww : ℤ) :
    loopCycleBody (initState sw ww)
        (some (Json.jobj [("data", Json.jobj [("attributes", Json.jobj
          [("base_token_price_usd", Json.jstr "not-a-number"),
           ("price_change_percentage", Json.jobj [("h24", Json.jnum 1)])])])]))
      = Except.error PyErr.valueError ∧
    loopCycleBody (initState sw ww) (some (Json.jobj [("data", Json.jobj [])]))
      = Except.error (PyErr.keyError "attributes") ∧
    loopCycleBody (initState sw ww) none = Except.ok (initState sw ww) ∧
    loopCycleBody (initState sw ww) (some (Json.jobj [("other", Json.jnum 1)]))
      = Except.ok (initState sw ww) :=
  ⟨rfl, rfl, rfl, rfl⟩

/-- C8 is violated by the code: when the logo fails to load,
_load_logo swallows the exception but never creates self.image_label, and
_bind_events then dereferences self.image_label, raising AttributeError
and aborting __init__; with the logo present, startup completes with the
bindings installed. -/
theorem missing_logo_aborts_startup :
    startupWidget false = Except.error (PyErr.attributeError "image_label") ∧
    startupWidget true = Except.ok
      { priceLabel := true, percentLabel := true, imageLabel := true,
        logoErrorLogged := false, bindingsInstalled := true } :=
  ⟨rfl, rfl⟩

/-- C9 is violated by the code: a well-formed sample makes
_update_price_loop call _update_price_display synchronously on the
background worker thread, so both label configure calls execute in the
worker context; no thread-safe handoff to the UI thread exists. -/
theorem worker_mutates_labels_directly :
    cycleMutations
        (some (Json.jobj [("data", Json.jobj [("attributes", Json.jobj
          [("base_token_price_usd", Json.jnum 1),
           ("price_change_percentage", Json.jobj [("h24", Json.jnum 2)])])])]))
      = Except.ok [(ExecContext.workerThread, "price_label.configure"),
                   (ExecContext.workerThread, "percent_label.configure")] := rfl

end GovnoWidget

namespace GovnoWidget

theorem natDigitChar_isDigit (n : ℕ) : (natDigitChar n).isDigit = true := by
  unfold natDigitChar
  have h : n % 10 < 10 := Nat.mod_lt _ (by norm_num)
  set k := n % 10 with hk
  interval_cases k <;> decide

theorem paddedDigits_length (k : ℕ) : ∀ m : ℕ, (paddedDigits k m).length = k := by
  induction k with
  | zero => intro m; rfl
  | succ k ih => intro m; simp [paddedDigits, ih]

theorem paddedDigits_digits (k : ℕ) : ∀ m : ℕ, ∀ c ∈ paddedDigits k m, c.isDigit = true := by
  induction k with
  | zero => intro m c hc; simp [paddedDigits] at hc
  | succ k ih =>
    intro m c hc
    rw [paddedDigits, List.mem_append] at hc
    rcases hc with h | h
    · exact ih _ c h
    · rw [List.mem_singleton] at h
      subst h
      exact natDigitChar_isDigit m

theorem fmtFixedNonneg_decomp (nd : ℕ) (q : ℚ) :
    ∃ intStr fracStr : String, fmtFixedNonneg nd q = intStr ++ "." ++ fracStr ∧
      fracStr.length = nd ∧ ∀ c ∈ fracStr.data, c.isDigit = true := by
  refine ⟨toString ((round (q * (10:ℚ)^nd)).toNat / 10^nd),
          String.mk (paddedDigits nd ((round (q * (10:ℚ)^nd)).toNat % 10^nd)), rfl, ?_, ?_⟩
  · show (paddedDigits nd _).length = nd
    exact paddedDigits_length nd _
  · exact paddedDigits_digits nd _

theorem fmtFixed_decomp (nd : ℕ) (q : ℚ) :
    ∃ intStr fracStr : String, fmtFixed nd q = intStr ++ "." ++ fracStr ∧
      fracStr.length = nd ∧ ∀ c ∈ fracStr.data, c.isDigit = true := by
  unfold fmtFixed
  by_cases h : q < 0
  · rw [if_pos h]
    obtain ⟨i, f, he, hl, hd⟩ := fmtFixedNonneg_decomp nd (-q)
    exact ⟨"-" ++ i, f, by rw [he, ← String.append_assoc, ← String.append_assoc], hl, hd⟩
  · rw [if_neg h]
    exact fmtFixedNonneg_decomp nd q

end GovnoWidget

namespace GovnoWidget

theorem formatPriceText_example :
    formatPriceText ((1234567 : ℚ)/1000000) = "$1.234567" := by
  unfold formatPriceText fmtFixed
  rw [if_neg (by norm_num : ¬ ((1234567 : ℚ)/1000000 < 0))]
  simp only [fmtFixedNonneg]
  rw [show (1234567 : ℚ)/1000000 * 10 ^ 6 = ((1234567 : ℤ) : ℚ) from by norm_num]
  rw [round_intCast]
  decide

theorem formatChangeText_example :
    formatChangeText (-(1 : ℚ)/2) = "↓0.50%" := by
  unfold formatChangeText fmtFixed
  rw [if_neg (by norm_num : ¬ (0:ℚ) ≤ -(1 : ℚ)/2)]
  rw [if_neg (not_lt.mpr (abs_nonneg (-(1 : ℚ)/2)))]
  simp only [fmtFixedNonneg]
  rw [show |(-(1 : ℚ)/2)| * 10 ^ 2 = ((50 : ℤ) : ℚ) from by rw [abs_div]; norm_num]
  rw [round_intCast]
  decide

/-- C3: the displayed price text is a dollar sign followed by the price
with exactly six fractional digits; the displayed change text is the
sign-matching glyph, the absolute change with exactly two fractional
digits, and a percent sign; and the sample (price 1.234567, change -0.5)
renders price text "$1.234567" and change text "↓0.50%", with
previousPrice set to 1.234567. -/
theorem display_formatting (sw ww : ℤ) :
    (∀ price : ℚ, ∃ intStr fracStr : String,
      formatPriceText price = "$" ++ intStr ++ "." ++ fracStr ∧
      fracStr.length = 6 ∧ ∀ c ∈ fracStr.data, c.isDigit = true) ∧
    (∀ change : ℚ, ∃ intStr fracStr : String,
      formatChangeText change =
        (if 0 ≤ change then "↑" else "↓") ++ intStr ++ "." ++ fracStr ++ "%" ∧
      fracStr.length = 2 ∧ ∀ c ∈ fracStr.data, c.isDigit = true) ∧
    (updatePriceDisplay (initState sw ww) ((1234567 : ℚ)/1000000) (-(1 : ℚ)/2)).priceText
      = "$1.234567" ∧
    (updatePriceDisplay (initState sw ww) ((1234567 : ℚ)/1000000) (-(1 : ℚ)/2)).percentText
      = "↓0.50%" ∧
    (updatePriceDisplay (initState sw ww) ((1234567 : ℚ)/1000000) (-(1 : ℚ)/2)).previousPrice
      = some ((1234567 : ℚ)/1000000) := by
  refine ⟨?_, ?_, formatPriceText_example, formatChangeText_example, rfl⟩
  · intro price
    obtain ⟨i, f, he, hl, hd⟩ := fmtFixed_decomp 6 price
    refine ⟨i, f, ?_, hl, hd⟩
    unfold formatPriceText
    rw [he, ← String.append_assoc, ← String.append_assoc]
  · intro change
    obtain ⟨i, f, he, hl, hd⟩ := fmtFixedNonneg_decomp 2 |change|
    refine ⟨i, f, ?_, hl, hd⟩
    unfold formatChangeText fmtFixed
    rw [if_neg (not_lt.mpr (abs_nonneg change)), he]
    simp [String.append_assoc]

/-- Witness for C3: the sample (price 1.234567, change -0.5) applied to
the freshly initialised state renders "$1.234567". -/
theorem display_formatting_witness :
    (updatePriceDisplay (initState 1920 200) ((1234567 : ℚ)/1000000) (-(1 : ℚ)/2)).priceText
      = "$1.234567" :=
  (display_formatting 1920 200).2.2.1

end GovnoWidget
